import Mathlib

/-!
Shallow embedding of `sys_monitor.py` (host telemetry snapshot engine).

Conventions of the embedding:
* Python floats are modelled as exact rationals (`ℚ`); byte counts, pids and
  other counts as `ℕ`; the CLI interval as `ℤ`.
* A Python call that may raise is modelled as an `Option`/`Except` input
  supplied by an environment structure: `none`/`.error` means the call raised.
* Dictionaries returned by the collectors become Lean structures whose field
  names follow the Python keys.
-/

namespace SysMonitor

/-- Models Python `round(x, 1)` / the `.1f` format rounding: round to the
nearest integer multiple of 1/10, ties to the even multiple. -/
def roundHalfEven (y : ℚ) : ℤ :=
  let f := ⌊y⌋
  let r := Int.fract y
  if r < 1/2 then f
  else if 1/2 < r then f + 1
  else if f % 2 = 0 then f else f + 1

/-- Round a rational to one decimal place (half to even). -/
def pyRound1 (x : ℚ) : ℚ := (roundHalfEven (10 * x) : ℚ) / 10

/-- The loop of `fmt_bytes`: `while n >= step and i < len(units) - 1: n /= step; i += 1`
with `step = 1024.0` and `units = ["B", "KiB", "MiB", "GiB", "TiB"]` (so
`len(units) - 1 = 4`).  Returns the scaled value and the unit index. -/
def fmt_bytesAux (n : ℚ) (i : ℕ) : ℚ × ℕ :=
  if 1024 ≤ n ∧ i < 4 then fmt_bytesAux (n / 1024) (i + 1) else (n, i)
termination_by 4 - i
decreasing_by omega

/-- `fmt_bytes(n)` for a numeric argument: the source formats the scaled value
as `f"{n:.1f} {units[i]}"`; the model returns the rounded numeric part of that
string together with the unit index `i` (unit scale `1024 ^ i`).
(The `None` input, which yields the string `"n/a"`, is not modelled here as no
claim depends on it.) -/
def fmt_bytes (n : ℚ) : ℚ × ℕ :=
  let p := fmt_bytesAux n 0
  (pyRound1 p.1, p.2)

/-- `argparse` default for `--interval` (`type=int, default=0`). -/
def intervalDefault : ℤ := 0

/-- The continuous-mode interval resolution in `main`:
`interval = args.interval if args.interval and args.interval > 0 else 5`.
Python truthiness of an `int` is `≠ 0`. -/
def effectiveInterval (interval : ℤ) : ℤ :=
  if interval ≠ 0 ∧ 0 < interval then interval else 5

/-! ### Process Ranker (`top_processes`) -/

/-- One process yielded by the first `psutil.process_iter` pass.
`read` is the joint outcome of `p.cpu_percent(interval=None)` and
`p.memory_info().rss`: `none` means one of the two raised (the process is
skipped by the `except: continue`), `some (cpu, rss)` the values read. -/
structure ProcFirstRead where
  pid : ℕ
  name : String
  read : Option (ℚ × ℕ)
  deriving DecidableEq

/-- One process yielded by the second `psutil.process_iter` pass.
`cpuRead = none` means `p.cpu_percent(interval=0.1)` raised (process skipped);
`memRead = none` means the later `p.memory_info().rss` raised, in which case
the matched item keeps its old `rss_bytes` but has already received the new
`cpu_percent` (the assignment order in the source). -/
structure ProcSecondRead where
  pid : ℕ
  cpuRead : Option ℚ
  memRead : Option ℕ
  deriving DecidableEq

/-- One entry of the `procs` list built by `top_processes`. -/
structure ProcSample where
  pid : ℕ
  name : String
  cpu_percent : ℚ
  rss_bytes : ℕ
  deriving DecidableEq

/-- The environment of one `top_processes` call: the two successive
`psutil.process_iter` enumerations together with the per-process read
outcomes. -/
structure ProcEnv where
  firstIter : List ProcFirstRead
  secondIter : List ProcSecondRead
  deriving DecidableEq

/-- First pass: build `procs` from every process whose reads succeed. -/
def firstPass (ps : List ProcFirstRead) : List ProcSample :=
  ps.filterMap fun p => p.read.map fun c => ⟨p.pid, p.name, c.1, c.2⟩

/-- The inner `for item in procs: if item["pid"] == p.pid: ...; break` loop:
update the first entry with the given pid (new cpu always, new rss only if
the memory read did not raise) and leave everything else unchanged. -/
def updateFirst (procs : List ProcSample) (pid : ℕ) (cpu : ℚ) (mem : Option ℕ) :
    List ProcSample :=
  match procs with
  | [] => []
  | item :: rest =>
    if item.pid = pid then
      { item with cpu_percent := cpu, rss_bytes := mem.getD item.rss_bytes } :: rest
    else
      item :: updateFirst rest pid cpu mem

/-- Second pass: for each re-enumerated process whose cpu re-read succeeds,
refresh the matching first-pass entry. Exited processes are simply never
matched; their entries stay as the first pass left them. -/
def secondPass (procs : List ProcSample) : List ProcSecondRead → List ProcSample
  | [] => procs
  | p :: rest =>
    match p.cpuRead with
    | none => secondPass procs rest
    | some cpu => secondPass (updateFirst procs p.pid cpu p.memRead) rest

/-- The sort key comparison `key=lambda x: (x["cpu_percent"], x["rss_bytes"])`
with `reverse=True`: `a` sorts no later than `b` iff its key tuple is
lexicographically ≥. -/
def keyGE (a b : ProcSample) : Prop :=
  b.cpu_percent < a.cpu_percent ∨
    (a.cpu_percent = b.cpu_percent ∧ b.rss_bytes ≤ a.rss_bytes)

instance : DecidableRel keyGE := fun a b => by
  unfold keyGE; infer_instance

instance : IsTotal ProcSample keyGE where
  total a b := by
    unfold keyGE
    rcases lt_trichotomy a.cpu_percent b.cpu_percent with h | h | h
    · rcases le_total a.rss_bytes b.rss_bytes with h2 | h2
      · exact Or.inr (Or.inl h)
      · exact Or.inr (Or.inl h)
    · rcases le_total a.rss_bytes b.rss_bytes with h2 | h2
      · exact Or.inr (Or.inr ⟨h.symm, h2⟩)
      · exact Or.inl (Or.inr ⟨h, h2⟩)
    · exact Or.inl (Or.inl h)

instance : IsTrans ProcSample keyGE where
  trans a b c hab hbc := by
    unfold keyGE at *
    rcases hab with h1 | ⟨h1, h1r⟩ <;> rcases hbc with h2 | ⟨h2, h2r⟩
    · exact Or.inl (lt_trans h2 h1)
    · exact Or.inl (h2 ▸ h1)
    · exact Or.inl (h1 ▸ h2)
    · exact Or.inr ⟨h1.trans h2, le_trans h2r h1r⟩

/-- `top_processes(n)`: first pass, settle, second pass, then
`procs.sort(key=..., reverse=True)` (a stable descending sort, modelled by
`List.insertionSort keyGE`) and `procs[:n]`. -/
def top_processes (env : ProcEnv) (n : ℕ) : List ProcSample :=
  let procs := firstPass env.firstIter
  let procs := secondPass procs env.secondIter
  (List.insertionSort keyGE procs).take n

/-! ### GPU Backend Resolver (`get_gpu_info`) -/

/-- Models Python `int(s)` on the (already stripped) cell of the nvidia-smi
report: an optional sign followed by decimal digits. -/
def pyInt? (s : String) : Option ℤ := s.trim.toInt?

/-- Digits-to-number helper for `pyFloat?`. -/
def decDigits? : List Char → Option ℕ
  | [] => some 0
  | c :: cs =>
    if c.isDigit then
      (decDigits? cs).map fun v => v * 10 ^ cs.length + c.toNat - 48
    else
      none

/-- Models Python `float(s)` on the decimal-literal fragment it is given by
the nvidia-smi report: optional sign, digits, optional `.` and fraction
digits; anything else raises (`none`). -/
def pyFloat? (s : String) : Option ℚ :=
  let cs := s.trim.toList
  let (sign, body) : ℚ × List Char :=
    match cs with
    | '-' :: rest => (-1, rest)
    | '+' :: rest => (1, rest)
    | rest => (1, rest)
  let intPart := body.takeWhile Char.isDigit
  let rest := body.dropWhile Char.isDigit
  match rest with
  | [] =>
    if intPart = [] then none
    else (decDigits? intPart).map fun v => sign * v
  | '.' :: fracPart =>
    if intPart = [] ∧ fracPart = [] then none
    else
      match decDigits? intPart, decDigits? fracPart with
      | some v, some w => some (sign * (v + (w : ℚ) / 10 ^ fracPart.length))
      | _, _ => none
  | _ => none

/-- One parsed line of the nvidia-smi CSV report. -/
structure GpuInfoN where
  index : ℤ
  name : String
  driver_version : String
  memory_total_mb : ℚ
  memory_used_mb : ℚ
  utilization_percent : ℚ
  temperature_c : ℚ
  deriving DecidableEq

/-- Parse one stdout line: `parts = [p.strip() for p in line.split(",")]`;
lines with fewer than 7 parts are skipped (`none`); a line with ≥ 7 parts
whose numeric cells fail `int()`/`float()` raises (`some none`); otherwise
the parsed record is produced (`some (some g)`). -/
def parseGpuLine (line : String) : Option (Option GpuInfoN) :=
  let parts := (line.splitOn ",").map String.trim
  if 7 ≤ parts.length then
    match pyInt? (parts.getD 0 ""), pyFloat? (parts.getD 3 ""),
        pyFloat? (parts.getD 4 ""), pyFloat? (parts.getD 5 ""),
        pyFloat? (parts.getD 6 "") with
    | some idx, some mt, some mu, some util, some temp =>
      some (some ⟨idx, parts.getD 1 "", parts.getD 2 "", mt, mu, util, temp⟩)
    | _, _, _, _, _ => some none
  else
    none

/-- The parsing loop over `result.stdout.strip().splitlines()`: any raised
`ValueError` aborts the whole nvidia-smi branch (`Except.error`), short lines
are skipped. -/
def parseGpuLines : List String → Except Unit (List GpuInfoN)
  | [] => Except.ok []
  | line :: rest =>
    match parseGpuLine line with
    | none => parseGpuLines rest
    | some none => Except.error ()
    | some (some g) =>
      match parseGpuLines rest with
      | Except.ok gs => Except.ok (g :: gs)
      | Except.error e => Except.error e

/-- Models `result.stdout.strip().splitlines()`. -/
def stdoutLines (s : String) : List String :=
  let t := s.trim
  if t = "" then [] else t.splitOn "\x0a"

/-- The nvidia-smi invocation environment: `which` is
`shutil.which("nvidia-smi")`; `run` is the `subprocess.run(..., check=True)`
outcome — `.error` models any raised exception (tool failed to start or
non-zero exit), `.ok stdout` a zero-exit run with captured stdout. -/
structure NvidiaEnv where
  which : Option String
  run : Except Unit String

/-- One device object returned by `GPUtil.getGPUs()`. -/
structure GputilGpu where
  id : ℕ
  name : String
  load : Option ℚ
  memoryTotal : ℚ
  memoryUsed : ℚ
  temperature : ℚ
  uuid : String
  deriving DecidableEq

/-- The dictionary built from a `GPUtil` device. -/
structure GputilOut where
  id : ℕ
  name : String
  load_percent : Option ℚ
  memory_total_mb : ℚ
  memory_used_mb : ℚ
  temperature_c : ℚ
  uuid : String
  deriving DecidableEq

/-- Environment of one `get_gpu_info` call. `gputilModule` is whether the
optional `import GPUtil` succeeded at module load (`GPUtil is not None`);
`gputilGpus` is the `GPUtil.getGPUs()` outcome (`.error` models a raised
exception). -/
structure GpuEnv where
  nvidia : NvidiaEnv
  gputilModule : Bool
  gputilGpus : Except Unit (List GputilGpu)

/-- The value returned by `get_gpu_info` when it is not `None`: the
`"backend"` key of the returned dict is determined by the constructor. -/
inductive GpuReport where
  | nvidia (gpus : List GpuInfoN)
  | gputil (gpus : List GputilOut)
  deriving DecidableEq

/-- The string stored under the `"backend"` key of the returned dict. -/
def GpuReport.backend : GpuReport → String
  | .nvidia _ => "nvidia-smi"
  | .gputil _ => "GPUtil"

/-- The dict built for one GPUtil device:
`round(g.load * 100, 1) if g.load is not None else None` etc. -/
def gputilEntry (g : GputilGpu) : GputilOut :=
  ⟨g.id, g.name, g.load.map fun l => pyRound1 (l * 100),
    g.memoryTotal, g.memoryUsed, g.temperature, g.uuid⟩

/-- The `GPUtil` fallback block: skipped when the module is absent; a raised
exception inside it yields fallthrough to `return None`. -/
def gputilBranch (env : GpuEnv) : Option GpuReport :=
  if env.gputilModule then
    match env.gputilGpus with
    | Except.ok gs => some (GpuReport.gputil (gs.map gputilEntry))
    | Except.error _ => none
  else
    none

/-- `get_gpu_info`: prefer nvidia-smi when on the path; any exception in its
block (subprocess failure or a parse `ValueError`) falls through to the
GPUtil block; if neither yields data, return `None`. -/
def get_gpu_info (env : GpuEnv) : Option GpuReport :=
  match env.nvidia.which with
  | some _ =>
    match env.nvidia.run with
    | Except.ok out =>
      match parseGpuLines (stdoutLines out) with
      | Except.ok gpus => some (GpuReport.nvidia gpus)
      | Except.error _ => gputilBranch env
    | Except.error _ => gputilBranch env
  | none => gputilBranch env

/-- The two backend paths, in source precedence order. -/
inductive Backend where
  | nvidiaSmi
  | gputil
  deriving DecidableEq

/-- `gputilBranch` instrumented with the attempt trace: the GPUtil query is
attempted exactly when the module is present. -/
def gputilTraced (env : GpuEnv) (attempts : List Backend) :
    Option GpuReport × List Backend :=
  if env.gputilModule then
    (gputilBranch env, attempts ++ [Backend.gputil])
  else
    (gputilBranch env, attempts)

/-- `get_gpu_info` instrumented with the list of backends actually attempted
during the call (nvidia-smi is attempted iff it is on the path; GPUtil iff
control reaches its block with the module present). The first component
coincides with `get_gpu_info`. -/
def get_gpu_info_traced (env : GpuEnv) : Option GpuReport × List Backend :=
  match env.nvidia.which with
  | some _ =>
    match env.nvidia.run with
    | Except.ok out =>
      match parseGpuLines (stdoutLines out) with
      | Except.ok gpus => (some (GpuReport.nvidia gpus), [Backend.nvidiaSmi])
      | Except.error _ => gputilTraced env [Backend.nvidiaSmi]
    | Except.error _ => gputilTraced env [Backend.nvidiaSmi]
  | none => gputilTraced env []

/-! ### Domain collectors -/

/-- The `platform.uname()` result plus the ambient values the OS collector
reads (`platform.processor()`, `platform.python_version()`, the formatted
`psutil.boot_time()` instant). -/
structure OsEnv where
  system : String
  node : String
  release : String
  version : String
  machine : String
  unameProcessor : String
  platformProcessor : String
  python_version : String
  boot_time : String
  deriving DecidableEq

/-- The dict returned by `get_os_info`. -/
structure OsInfo where
  system : String
  node : String
  release : String
  version : String
  machine : String
  processor : String
  python_version : String
  boot_time : String
  deriving DecidableEq

/-- `get_os_info`: `uname.processor or platform.processor()` is the Python
string-`or` (empty string falls back). -/
def get_os_info (env : OsEnv) : OsInfo :=
  { system := env.system, node := env.node, release := env.release,
    version := env.version, machine := env.machine,
    processor := if env.unameProcessor ≠ "" then env.unameProcessor
                 else env.platformProcessor,
    python_version := env.python_version, boot_time := env.boot_time }

/-- Raw values the CPU collector reads: `psutil.cpu_freq()` via `safe_call`
(`none` = raised or returned `None`), `os.getloadavg()` guarded by `hasattr`
and `try` (`none` = unavailable), counts and instantaneous percents. -/
structure CpuEnv where
  physical_cores : Option ℕ
  total_cores : Option ℕ
  usage_percent_total : ℚ
  usage_percent_per_core : List ℚ
  freq : Option (ℚ × ℚ × ℚ)
  loadavg : Option (ℚ × ℚ × ℚ)
  deriving DecidableEq

/-- The dict returned by `get_cpu_info`. -/
structure CpuInfo where
  physical_cores : Option ℕ
  total_cores : Option ℕ
  usage_percent_total : ℚ
  usage_percent_per_core : List ℚ
  frequency_mhz : Option ℚ
  frequency_min_mhz : Option ℚ
  frequency_max_mhz : Option ℚ
  load_average : Option (ℚ × ℚ × ℚ)
  deriving DecidableEq

/-- `get_cpu_info`: frequency fields are `freq.current if freq else None`
etc. -/
def get_cpu_info (env : CpuEnv) : CpuInfo :=
  { physical_cores := env.physical_cores, total_cores := env.total_cores,
    usage_percent_total := env.usage_percent_total,
    usage_percent_per_core := env.usage_percent_per_core,
    frequency_mhz := env.freq.map fun f => f.1,
    frequency_min_mhz := env.freq.map fun f => f.2.1,
    frequency_max_mhz := env.freq.map fun f => f.2.2,
    load_average := env.loadavg }

/-- Raw `psutil.virtual_memory()` / `psutil.swap_memory()` values. -/
structure MemEnv where
  vm_total : ℕ
  vm_available : ℕ
  vm_used : ℕ
  vm_percent : ℚ
  sm_total : ℕ
  sm_used : ℕ
  sm_percent : ℚ
  deriving DecidableEq

/-- The dict returned by `get_memory_info`. -/
structure MemoryInfo where
  ram_total : ℕ
  ram_available : ℕ
  ram_used : ℕ
  ram_percent : ℚ
  swap_total : ℕ
  swap_used : ℕ
  swap_percent : ℚ
  deriving DecidableEq

/-- `get_memory_info`. -/
def get_memory_info (env : MemEnv) : MemoryInfo :=
  { ram_total := env.vm_total, ram_available := env.vm_available,
    ram_used := env.vm_used, ram_percent := env.vm_percent,
    swap_total := env.sm_total, swap_used := env.sm_used,
    swap_percent := env.sm_percent }

/-- A successful `psutil.disk_usage(mountpoint)` result. -/
structure DiskUsage where
  total : ℕ
  used : ℕ
  percent : ℚ
  deriving DecidableEq

/-- One partition from `psutil.disk_partitions(all=False)` together with the
outcome of its own `psutil.disk_usage` call (`none` = the call raised inside
`safe_call`, so `usage` is `None`). -/
structure PartitionEnv where
  device : String
  mountpoint : String
  fstype : String
  usage : Option DiskUsage
  deriving DecidableEq

/-- One entry of the `partitions` list built by `get_disks_info`:
`getattr(usage, "total", None)` is `None` exactly when `usage` is `None`. -/
structure PartitionEntry where
  device : String
  mountpoint : String
  fstype : String
  total : Option ℕ
  used : Option ℕ
  percent : Option ℚ
  deriving DecidableEq

/-- Per-disk IO counters (`._asdict()` of one `psutil` counters tuple). -/
structure IoCounters where
  read_count : ℕ
  write_count : ℕ
  read_bytes : ℕ
  write_bytes : ℕ
  deriving DecidableEq

/-- Environment of one `get_disks_info` call: the enumerated partitions with
their individual usage outcomes, and the `psutil.disk_io_counters` outcome
(`none` = raised; `safe_call` then yields the default `{}`). -/
structure DisksEnv where
  partitions : List PartitionEnv
  io : Option (List (String × IoCounters))
  deriving DecidableEq

/-- The per-partition dict of `get_disks_info`. -/
def partitionEntry (p : PartitionEnv) : PartitionEntry :=
  { device := p.device, mountpoint := p.mountpoint, fstype := p.fstype,
    total := p.usage.map fun u => u.total,
    used := p.usage.map fun u => u.used,
    percent := p.usage.map fun u => u.percent }

/-- The dict returned by `get_disks_info`. -/
structure DisksInfo where
  partitions : List PartitionEntry
  io_counters : List (String × IoCounters)
  deriving DecidableEq

/-- `get_disks_info`: each partition is queried independently; the io
counters fall back to the empty mapping on failure. -/
def get_disks_info (env : DisksEnv) : DisksInfo :=
  { partitions := env.partitions.map partitionEntry,
    io_counters := env.io.getD [] }

/-- Per-interface raw stats (`psutil.net_if_stats()[name]`). -/
structure NifStats where
  isup : Bool
  speed : ℤ
  mtu : ℕ
  deriving DecidableEq

/-- Per-interface raw IO counters. -/
structure NetIo where
  bytes_sent : ℕ
  bytes_recv : ℕ
  packets_sent : ℕ
  packets_recv : ℕ
  deriving DecidableEq

/-- Environment of `get_network_info`: the three `psutil` mappings, as
association lists keyed by interface name. -/
structure NetEnv where
  addrs : List (String × List String)
  stats : List (String × NifStats)
  io : List (String × NetIo)
  deriving DecidableEq

/-- One interface dict built by `get_network_info`;
`getattr(stats.get(name), field, None)` is `None` when the name is absent. -/
structure InterfaceInfo where
  isup : Option Bool
  speed_mbps : Option ℤ
  mtu : Option ℕ
  addresses : List String
  io : Option NetIo
  deriving DecidableEq

/-- The dict returned by `get_network_info` (`interfaces` keyed by name). -/
def get_network_info (env : NetEnv) : List (String × InterfaceInfo) :=
  env.addrs.map fun a =>
    (a.1,
      { isup := (env.stats.lookup a.1).map fun s => s.isup,
        speed_mbps := (env.stats.lookup a.1).map fun s => s.speed,
        mtu := (env.stats.lookup a.1).map fun s => s.mtu,
        addresses := a.2.filter fun ad => ad ≠ "",
        io := env.io.lookup a.1 })

/-- The dict returned by `get_battery_info`; also the raw
`psutil.sensors_battery()` tuple (the collector copies the three fields). -/
structure BatteryInfo where
  percent : ℚ
  secsleft : ℤ
  power_plugged : Bool
  deriving DecidableEq

/-- `get_battery_info`: `safe_call` yields `None` on exception and the
`if not batt` test maps an absent battery to `None`; otherwise the three
fields are copied. -/
def get_battery_info (batt : Option BatteryInfo) : Option BatteryInfo :=
  match batt with
  | none => none
  | some b => some { percent := b.percent, secsleft := b.secsleft,
                     power_plugged := b.power_plugged }

/-- One sensor reading (`._asdict()` of a temperature entry). -/
structure TempReading where
  label : String
  current : ℚ
  high : Option ℚ
  critical : Option ℚ
  deriving DecidableEq

/-- `get_temps_info`: a raised call or an empty mapping is falsy and yields
`None`; otherwise the per-chip lists are copied and `out or None` guards the
(unreachable) empty rebuild. -/
def get_temps_info (temps : Option (List (String × List TempReading))) :
    Option (List (String × List TempReading)) :=
  match temps with
  | none => none
  | some ts =>
    if ts.isEmpty then none
    else if ts.isEmpty then none else some ts

/-! ### Snapshot Assembler (`collect_metrics`) and JSON shape -/

/-- Environment of one `collect_metrics` tick: one input per collector, plus
the formatted `datetime.utcnow().isoformat()` instant and the enumerated
`psutil.pids()` list. -/
structure CollectEnv where
  now : String
  os : OsEnv
  cpu : CpuEnv
  mem : MemEnv
  disks : DisksEnv
  net : NetEnv
  battery : Option BatteryInfo
  temps : Option (List (String × List TempReading))
  gpu : GpuEnv
  pids : List ℕ
  proc : ProcEnv

/-- The snapshot dict returned by `collect_metrics`. -/
structure Metrics where
  timestamp : String
  os : OsInfo
  cpu : CpuInfo
  memory : MemoryInfo
  disks : DisksInfo
  network : List (String × InterfaceInfo)
  battery : Option BatteryInfo
  temperatures : Option (List (String × List TempReading))
  gpus : Option GpuReport
  process_count : ℕ
  top_processes : List ProcSample

/-- `collect_metrics`: assemble every domain, stamp the time, count pids and
rank the top 10 processes. -/
def collect_metrics (env : CollectEnv) : Metrics :=
  { timestamp := env.now ++ "Z",
    os := get_os_info env.os,
    cpu := get_cpu_info env.cpu,
    memory := get_memory_info env.mem,
    disks := get_disks_info env.disks,
    network := get_network_info env.net,
    battery := get_battery_info env.battery,
    temperatures := get_temps_info env.temps,
    gpus := get_gpu_info env.gpu,
    process_count := env.pids.length,
    top_processes := top_processes env.proc 10 }

/-- JSON values, as produced by `json.dump` of the snapshot dict. -/
inductive Json where
  | null
  | bool (b : Bool)
  | num (q : ℚ)
  | str (s : String)
  | arr (xs : List Json)
  | obj (kvs : List (String × Json))

/-- `None`-aware serialization of an optional sub-dict: `json.dump` writes
`null` for `None`. -/
def optJson (f : α → Json) : Option α → Json
  | none => Json.null
  | some x => f x

/-- JSON view of a top-process entry. -/
def procJson (p : ProcSample) : Json :=
  Json.obj [("pid", Json.num p.pid), ("name", Json.str p.name),
    ("cpu_percent", Json.num p.cpu_percent), ("rss_bytes", Json.num p.rss_bytes)]

/-- JSON view of the GPU report, keeping only its `backend` discriminator at
full fidelity (the per-device dicts are serialized as opaque objects whose
contents no claim inspects). -/
def gpuJson (r : GpuReport) : Json :=
  Json.obj [("backend", Json.str r.backend),
    ("gpus", Json.arr (match r with
      | GpuReport.nvidia gs => gs.map fun _ => Json.obj []
      | GpuReport.gputil gs => gs.map fun _ => Json.obj []))]

/-- The top-level JSON object that `write_json` serializes for a snapshot:
the eleven keys of the `collect_metrics` dict literal, in source order; the
sub-dicts other than the optional domains are serialized as opaque objects. -/
def metricsJson (m : Metrics) : Json :=
  Json.obj
    [("timestamp", Json.str m.timestamp),
     ("os", Json.obj []),
     ("cpu", Json.obj []),
     ("memory", Json.obj []),
     ("disks", Json.obj []),
     ("network", Json.obj []),
     ("battery", optJson (fun _ => Json.obj []) m.battery),
     ("temperatures", optJson (fun _ => Json.obj []) m.temperatures),
     ("gpus", optJson gpuJson m.gpus),
     ("process_count", Json.num m.process_count),
     ("top_processes", Json.arr (m.top_processes.map procJson))]

/-- The key list of a JSON object. -/
def Json.keys : Json → List String
  | Json.obj kvs => kvs.map fun kv => kv.1
  | _ => []

/-- Key lookup in a JSON object. -/
def Json.lookup (k : String) : Json → Option Json
  | Json.obj kvs => kvs.lookup k
  | _ => none

/-! ### CSV sink (`append_csv`) -/

/-- One cell value of the flattened CSV row (`csv.DictWriter` stringifies
each; the model keeps the typed value). -/
inductive CsvCell where
  | s (v : String)
  | q (v : ℚ)
  | n (v : ℕ)
  deriving DecidableEq

/-- One physical line of the CSV file. -/
inductive CsvLine where
  | header (names : List String)
  | row (cells : List CsvCell)
  deriving DecidableEq

/-- `fieldnames = list(row.keys())` of `append_csv`. -/
def csvFieldnames : List String :=
  ["timestamp", "host", "cpu_usage_percent", "ram_percent", "swap_percent",
   "process_count"]

/-- The flattened row `append_csv` builds from a snapshot. -/
def csvRow (m : Metrics) : List CsvCell :=
  [CsvCell.s m.timestamp, CsvCell.s m.os.node,
   CsvCell.q m.cpu.usage_percent_total, CsvCell.q m.memory.ram_percent,
   CsvCell.q m.memory.swap_percent, CsvCell.n m.process_count]

/-- `append_csv`: the file is `none` when `os.path.exists(path)` is false;
opening with mode `"a"` creates it; the header is written only when the file
did not exist, then the row is appended. The result is the new file
content as a list of lines. -/
def append_csv (file : Option (List CsvLine)) (m : Metrics) : List CsvLine :=
  match file with
  | none => [CsvLine.header csvFieldnames, CsvLine.row (csvRow m)]
  | some lines => lines ++ [CsvLine.row (csvRow m)]

/-- Whether a CSV line is a header line. -/
def CsvLine.isHeader : CsvLine → Bool
  | CsvLine.header _ => true
  | CsvLine.row _ => false

/-! ### Startup guard and program skeleton -/

/-- Outcome of the module-level `try: import psutil except ImportError`
guard. -/
inductive StartupResult where
  | exited (code : ℕ) (diagnostic : String)
  | ok
  deriving DecidableEq

/-- The import guard: on `ImportError` print a diagnostic to stderr and
`sys.exit(1)` before anything else runs. -/
def importGuard (psutilOk : Bool) : StartupResult :=
  if psutilOk then StartupResult.ok
  else StartupResult.exited 1
    "This script requires \x27psutil\x27. Install with: python -m pip install psutil"

/-- One program run in one-shot mode (`--once`): exit code, the diagnostic
printed by the guard (if any), and the snapshots collected. The guard for
the psutil dependency runs at module load, before `main` and before any
collector. -/
def runProgram (psutilOk : Bool) (env : CollectEnv) :
    ℕ × Option String × List Metrics :=
  match importGuard psutilOk with
  | StartupResult.exited code diag => (code, some diag, [])
  | StartupResult.ok => (0, none, [collect_metrics env])

/-! ### Concrete environments used to instantiate the theorems -/

/-- A tick on which nvidia-smi is on the path but its invocation raises
(non-zero exit), while the GPUtil module is importable and enumerates one
device. -/
def gpuEnvW : GpuEnv :=
  { nvidia := { which := some "/usr/bin/nvidia-smi", run := Except.error () },
    gputilModule := true,
    gputilGpus := Except.ok [⟨0, "gpu0", none, 4096, 1024, 55, "uuid0"⟩] }

/-- A `top_processes` call during which the only process enumerated by the
first pass (pid 1) exits before the second pass re-enumerates. -/
def procEnvC1 : ProcEnv :=
  { firstIter := [⟨1, "ghost", some (0, 100)⟩], secondIter := [] }

/-- A `top_processes` call with two first-pass processes of which only pid 2
survives to the second pass. -/
def procEnvW : ProcEnv :=
  { firstIter := [⟨1, "a", some (2, 5)⟩, ⟨2, "b", some (3, 7)⟩],
    secondIter := [⟨2, some 4, some 8⟩] }

/-- A disk enumeration on which statting the second mountpoint raises. -/
def disksEnvW : DisksEnv :=
  { partitions := [⟨"devA", "/", "ext4", some ⟨100, 40, 40⟩⟩,
                   ⟨"devB", "/mnt", "ext4", none⟩],
    io := none }

/-- A minimal collection environment: a host with no battery, no temperature
sensors and no GPU backend. -/
def collectEnvW : CollectEnv :=
  { now := "2026-01-01T00:00:00",
    os := ⟨"Linux", "host", "6.1", "v1", "x86_64", "cpu0", "cpu0", "3.12.0", "b"⟩,
    cpu := ⟨some 4, some 8, 10, [10, 10], none, none⟩,
    mem := ⟨1024, 512, 512, 50, 0, 0, 0⟩,
    disks := ⟨[], none⟩,
    net := ⟨[], [], []⟩,
    battery := none,
    temps := none,
    gpu := ⟨⟨none, Except.error ()⟩, false, Except.error ()⟩,
    pids := [1, 2],
    proc := ⟨[], []⟩ }

end SysMonitor

namespace SysMonitor

theorem abs_roundHalfEven_sub (y : ℚ) : |(roundHalfEven y : ℚ) - y| ≤ 1/2 := by
  have hfr0 : 0 ≤ Int.fract y := Int.fract_nonneg y
  have hfr1 : Int.fract y < 1 := Int.fract_lt_one y
  have hfl : (⌊y⌋ : ℚ) = y - Int.fract y := by
    have := Int.fract_add_floor y
    linarith
  unfold roundHalfEven
  simp only
  split
  · rw [hfl, abs_le]; constructor <;> linarith
  · split
    · push_cast [hfl]
      rw [abs_le]; constructor <;> linarith
    · split
      · rw [hfl, abs_le]; constructor <;> linarith
      · push_cast [hfl]
        rw [abs_le]; constructor <;> linarith

theorem abs_pyRound1_sub (x : ℚ) : |pyRound1 x - x| ≤ 1/20 := by
  have h := abs_roundHalfEven_sub (10 * x)
  unfold pyRound1
  have h10 : (0:ℚ) < 10 := by norm_num
  have : |(roundHalfEven (10 * x) : ℚ) / 10 - x|
      = |(roundHalfEven (10 * x) : ℚ) - 10 * x| / 10 := by
    rw [← abs_of_pos h10, ← abs_div]
    congr 1
    field_simp
  rw [this]
  linarith

theorem fmt_bytesAux_spec (n : ℚ) (i : ℕ) :
    (fmt_bytesAux n i).1 * 1024 ^ ((fmt_bytesAux n i).2 - i) = n ∧
    i ≤ (fmt_bytesAux n i).2 := by
  generalize hk : 4 - i = k
  induction k generalizing n i with
  | zero =>
    rw [fmt_bytesAux]
    have hi : ¬ i < 4 := by omega
    simp [hi]
  | succ k ih =>
    rw [fmt_bytesAux]
    split
    · have hk2 : 4 - (i + 1) = k := by omega
      obtain ⟨h1, h2⟩ := ih (n / 1024) (i + 1) hk2
      refine ⟨?_, by omega⟩
      have hij : i ≤ (fmt_bytesAux (n / 1024) (i + 1)).2 - 1 := by omega
      have hexp : (fmt_bytesAux (n / 1024) (i + 1)).2 - i
          = ((fmt_bytesAux (n / 1024) (i + 1)).2 - (i + 1)) + 1 := by omega
      rw [hexp, pow_succ, ← mul_assoc, h1]
      field_simp
    · simp

/-! ### Supporting lemmas for the Process Ranker -/

theorem updateFirst_map_pid (procs : List ProcSample) (pid : ℕ) (cpu : ℚ)
    (mem : Option ℕ) :
    (updateFirst procs pid cpu mem).map ProcSample.pid = procs.map ProcSample.pid := by
  induction procs with
  | nil => rfl
  | cons a l ih =>
    unfold updateFirst
    split
    · simp
    · simp [ih]

theorem secondPass_map_pid (reads : List ProcSecondRead) (procs : List ProcSample) :
    (secondPass procs reads).map ProcSample.pid = procs.map ProcSample.pid := by
  induction reads generalizing procs with
  | nil => rfl
  | cons q rest ih =>
    cases hc : q.cpuRead with
    | none => simp only [secondPass, hc]; exact ih procs
    | some cpu => simp only [secondPass, hc]; rw [ih, updateFirst_map_pid]

theorem mem_updateFirst_of_pid_ne {s : ProcSample} {procs : List ProcSample}
    {pid : ℕ} {cpu : ℚ} {mem : Option ℕ} (h : s ∈ procs) (hne : s.pid ≠ pid) :
    s ∈ updateFirst procs pid cpu mem := by
  induction procs with
  | nil => cases h
  | cons a l ih =>
    unfold updateFirst
    split
    · next ha =>
      rcases List.mem_cons.mp h with rfl | hl
      · exact absurd ha hne
      · exact List.mem_cons_of_mem _ hl
    · rcases List.mem_cons.mp h with rfl | hl
      · exact List.mem_cons_self _ _
      · exact List.mem_cons_of_mem _ (ih hl)

theorem mem_secondPass {s : ProcSample} (reads : List ProcSecondRead)
    (procs : List ProcSample) (h : s ∈ procs)
    (hq : ∀ q ∈ reads, q.pid ≠ s.pid) : s ∈ secondPass procs reads := by
  induction reads generalizing procs with
  | nil => exact h
  | cons q rest ih =>
    have hqs : q.pid ≠ s.pid := hq q (List.mem_cons_self _ _)
    cases hc : q.cpuRead with
    | none =>
      simp only [secondPass, hc]
      exact ih procs h (fun r hr => hq r (List.mem_cons_of_mem _ hr))
    | some cpu =>
      simp only [secondPass, hc]
      exact ih _ (mem_updateFirst_of_pid_ne h (fun he => hqs he.symm))
        (fun r hr => hq r (List.mem_cons_of_mem _ hr))

/-! ### Supporting lemma for the GPU Backend Resolver -/

theorem gputilBranch_eq_gputil {env : GpuEnv} {gs : List GputilOut}
    (hg : gputilBranch env = some (GpuReport.gputil gs)) :
    env.gputilModule = true ∧
    ∃ raw, env.gputilGpus = Except.ok raw ∧ gs = raw.map gputilEntry := by
  unfold gputilBranch at hg
  by_cases hm : env.gputilModule
  · rw [if_pos hm] at hg
    rcases hr : env.gputilGpus with e | raw
    · rw [hr] at hg; cases hg
    · rw [hr] at hg
      refine ⟨hm, raw, rfl, ?_⟩
      injection hg with h2
      injection h2 with h3
      exact h3.symm
  · rw [if_neg hm] at hg; cases hg

theorem gputilBranch_ne_nvidia (env : GpuEnv) (gs : List GpuInfoN) :
    gputilBranch env ≠ some (GpuReport.nvidia gs) := by
  intro hg
  unfold gputilBranch at hg
  by_cases hm : env.gputilModule
  · rw [if_pos hm] at hg
    rcases hr : env.gputilGpus with e | raw
    · rw [hr] at hg; cases hg
    · rw [hr] at hg; injection hg with h2; cases h2
  · rw [if_neg hm] at hg; cases hg

/-! ### Claims -/

/-- C1, counterexample: the claim says a process enumerated in the first pass
that exits before the second pass is excluded from the returned list. In
`procEnvC1` pid 1 is enumerated in the first pass, is absent from the second
pass, and is nevertheless returned by `top_processes` with its first-pass
readings, so the claim is false. -/
theorem claim_C1_counterexample :
    top_processes procEnvC1 10 = [⟨1, "ghost", 0, 100⟩] ∧
    (∀ q ∈ procEnvC1.secondIter, q.pid ≠ 1) ∧
    ¬ (∀ s ∈ top_processes procEnvC1 10,
        ∃ q ∈ procEnvC1.secondIter, q.pid = s.pid) := by
  have heval : top_processes procEnvC1 10 = [⟨1, "ghost", 0, 100⟩] := rfl
  refine ⟨heval, by decide, ?_⟩
  intro h
  rcases h ⟨1, "ghost", 0, 100⟩ (by rw [heval]; exact List.mem_singleton.mpr rfl)
    with ⟨q, hq, _⟩
  exact List.not_mem_nil q hq

/-- C1, amended: a process enumerated in the first pass that exits before the
second pass is retained, not excluded: it keeps its first-pass cpu/rss
readings in the candidate list (and may therefore appear in the returned
top list), and no error is reported; processes that appear only in the
second pass are ignored, so first-pass membership defines the candidate
set. -/
theorem claim_C1_amended (env : ProcEnv) (n : ℕ) :
    (∀ s ∈ top_processes env n,
      s.pid ∈ (firstPass env.firstIter).map ProcSample.pid) ∧
    (∀ s ∈ firstPass env.firstIter,
      (∀ q ∈ env.secondIter, q.pid ≠ s.pid) →
      s ∈ secondPass (firstPass env.firstIter) env.secondIter) := by
  constructor
  · intro s hs
    unfold top_processes at hs
    have h1 : s ∈ List.insertionSort keyGE
        (secondPass (firstPass env.firstIter) env.secondIter) :=
      (List.take_sublist n _).subset hs
    have h2 : s ∈ secondPass (firstPass env.firstIter) env.secondIter :=
      (List.perm_insertionSort keyGE _).subset h1
    have h3 := List.mem_map_of_mem ProcSample.pid h2
    rwa [secondPass_map_pid] at h3
  · intro s hs hq
    exact mem_secondPass env.secondIter _ hs hq

/-- C1, witness: in `procEnvW` pid 1 exits before the second pass and is
retained in the candidate list with its first-pass readings. -/
theorem claim_C1_witness :
    (⟨1, "a", 2, 5⟩ : ProcSample) ∈
      secondPass (firstPass procEnvW.firstIter) procEnvW.secondIter :=
  (claim_C1_amended procEnvW 10).2 ⟨1, "a", 2, 5⟩ (by decide) (by decide)

/-- C2: for every environment and requested count `n`, the list returned by
`top_processes` is sorted non-increasing by the key
(`cpu_percent`, `rss_bytes`) — cpu primary, rss tie-break — and has length at
most `n`. -/
theorem claim_C2 (env : ProcEnv) (n : ℕ) :
    List.Sorted keyGE (top_processes env n) ∧ (top_processes env n).length ≤ n := by
  unfold top_processes
  constructor
  · exact (List.sorted_insertionSort keyGE _).sublist (List.take_sublist n _)
  · simp [List.length_take]

/-- C3: whenever the nvidia-smi backend fails in any way (tool not on the
path, invocation raises, or its output raises during parsing), `get_gpu_info`
returns exactly the GPUtil fallback value (secondary backend data or `None`),
never an error; and whenever data is returned, its `backend` field exactly
identifies the backend that supplied it: a `nvidia-smi` report comes from a
successful nvidia-smi run that parsed to those devices, a `GPUtil` report
from a successful GPUtil enumeration. -/
theorem claim_C3 (env : GpuEnv) :
    ((env.nvidia.which = none ∨
      env.nvidia.run = Except.error () ∨
      (∀ out, env.nvidia.run = Except.ok out →
        parseGpuLines (stdoutLines out) = Except.error ())) →
      get_gpu_info env = gputilBranch env) ∧
    (∀ gs, get_gpu_info env = some (GpuReport.nvidia gs) →
      (GpuReport.nvidia gs).backend = "nvidia-smi" ∧
      ∃ p out, env.nvidia.which = some p ∧ env.nvidia.run = Except.ok out ∧
        parseGpuLines (stdoutLines out) = Except.ok gs) ∧
    (∀ gs, get_gpu_info env = some (GpuReport.gputil gs) →
      (GpuReport.gputil gs).backend = "GPUtil" ∧
      env.gputilModule = true ∧
      ∃ raw, env.gputilGpus = Except.ok raw ∧ gs = raw.map gputilEntry) := by
  rcases hW : env.nvidia.which with _ | p
  · have hg : get_gpu_info env = gputilBranch env := by
      simp only [get_gpu_info, hW]
    rw [hg]
    exact ⟨fun _ => rfl, fun gs h => absurd h (gputilBranch_ne_nvidia env gs),
      fun gs h => ⟨rfl, gputilBranch_eq_gputil h⟩⟩
  · rcases hR : env.nvidia.run with e | out
    · cases e
      have hg : get_gpu_info env = gputilBranch env := by
        simp only [get_gpu_info, hW, hR]
      rw [hg]
      exact ⟨fun _ => rfl, fun gs h => absurd h (gputilBranch_ne_nvidia env gs),
        fun gs h => ⟨rfl, gputilBranch_eq_gputil h⟩⟩
    · rcases hP : parseGpuLines (stdoutLines out) with e | gpus
      · cases e
        have hg : get_gpu_info env = gputilBranch env := by
          simp only [get_gpu_info, hW, hR, hP]
        rw [hg]
        exact ⟨fun _ => rfl, fun gs h => absurd h (gputilBranch_ne_nvidia env gs),
          fun gs h => ⟨rfl, gputilBranch_eq_gputil h⟩⟩
      · have hg : get_gpu_info env = some (GpuReport.nvidia gpus) := by
          simp only [get_gpu_info, hW, hR, hP]
        rw [hg]
        refine ⟨?_, ?_, ?_⟩
        · intro hfail
          rcases hfail with h | h | h
          · exact Option.noConfusion h
          · exact Except.noConfusion h
          · have h2 := h out rfl
            rw [hP] at h2
            exact Except.noConfusion h2
        · intro gs h
          injection h with h2
          injection h2 with h3
          exact ⟨rfl, p, out, rfl, rfl, h3 ▸ hP⟩
        · intro gs h
          injection h with h2
          cases h2

/-- C3, witness: in `gpuEnvW` the nvidia-smi invocation raises, so the
resolver falls back to the GPUtil branch, whose report labels its backend
`GPUtil`. -/
theorem claim_C3_witness :
    get_gpu_info gpuEnvW = gputilBranch gpuEnvW ∧
    (GpuReport.gputil [gputilEntry ⟨0, "gpu0", none, 4096, 1024, 55, "uuid0"⟩]).backend
      = "GPUtil" ∧
    gpuEnvW.gputilModule = true := by
  have h := claim_C3 gpuEnvW
  exact ⟨h.1 (Or.inr (Or.inl rfl)), (h.2.2 _ rfl).1, (h.2.2 _ rfl).2.1⟩

/-- C4, counterexample: the claim says `get_gpu_info` never attempts more
than one backend path within a tick. On `gpuEnvW` the nvidia-smi invocation
fails and the GPUtil backend is attempted in the same call, so two backend
paths are attempted. -/
theorem claim_C4_counterexample :
    (get_gpu_info_traced gpuEnvW).2 = [Backend.nvidiaSmi, Backend.gputil] ∧
    ¬ (get_gpu_info_traced gpuEnvW).2.length ≤ 1 := by
  exact ⟨rfl, by decide⟩

/-- C4, amended: backends are attempted in the fixed precedence order
nvidia-smi, GPUtil; the GPUtil path is attempted after nvidia-smi only when
the nvidia-smi attempt failed; the first backend that succeeds supplies the
returned report (an nvidia-smi success ends the call with nothing further
attempted), and GPUtil is only ever attempted when its module is present. -/
theorem claim_C4_amended (env : GpuEnv) :
    (get_gpu_info_traced env).1 = get_gpu_info env ∧
    ((get_gpu_info_traced env).2 = [] ∨
     (get_gpu_info_traced env).2 = [Backend.nvidiaSmi] ∨
     (get_gpu_info_traced env).2 = [Backend.gputil] ∨
     (get_gpu_info_traced env).2 = [Backend.nvidiaSmi, Backend.gputil]) ∧
    ((get_gpu_info_traced env).2 = [Backend.nvidiaSmi, Backend.gputil] →
      env.nvidia.which.isSome = true ∧
      (env.nvidia.run = Except.error () ∨
       ∀ out, env.nvidia.run = Except.ok out →
         parseGpuLines (stdoutLines out) = Except.error ())) ∧
    (∀ gs, (get_gpu_info_traced env).1 = some (GpuReport.nvidia gs) →
      (get_gpu_info_traced env).2 = [Backend.nvidiaSmi]) ∧
    (∀ gs, (get_gpu_info_traced env).1 = some (GpuReport.gputil gs) →
      (get_gpu_info_traced env).2.getLast? = some Backend.gputil) ∧
    (Backend.gputil ∈ (get_gpu_info_traced env).2 → env.gputilModule = true) := by
  cases hm : env.gputilModule with
  | false =>
    have hbn : gputilBranch env = none := by
      unfold gputilBranch; rw [hm]; rfl
    have hTr : ∀ a, gputilTraced env a = (none, a) := by
      intro a; unfold gputilTraced; rw [hm]; rw [hbn]; rfl
    rcases hW : env.nvidia.which with _ | p
    · have hT : get_gpu_info_traced env = (none, []) := by
        simp only [get_gpu_info_traced, hW, hTr]
      have hG : get_gpu_info env = gputilBranch env := by
        simp only [get_gpu_info, hW]
      rw [hT, hG, hbn]
      refine ⟨rfl, Or.inl rfl, (by intro h; simp at h), ?_, ?_, ?_⟩
      · intro gs h; cases h
      · intro gs h; cases h
      · intro h; cases h
    · rcases hR : env.nvidia.run with e | out
      · cases e
        have hT : get_gpu_info_traced env = (none, [Backend.nvidiaSmi]) := by
          simp only [get_gpu_info_traced, hW, hR, hTr]
        have hG : get_gpu_info env = gputilBranch env := by
          simp only [get_gpu_info, hW, hR]
        rw [hT, hG, hbn]
        refine ⟨rfl, Or.inr (Or.inl rfl), (by intro h; simp at h), ?_, ?_, ?_⟩
        · intro gs h; cases h
        · intro gs h; cases h
        · intro h; simp at h
      · rcases hP : parseGpuLines (stdoutLines out) with e | gpus
        · cases e
          have hT : get_gpu_info_traced env = (none, [Backend.nvidiaSmi]) := by
            simp only [get_gpu_info_traced, hW, hR, hP, hTr]
          have hG : get_gpu_info env = gputilBranch env := by
            simp only [get_gpu_info, hW, hR, hP]
          rw [hT, hG, hbn]
          refine ⟨rfl, Or.inr (Or.inl rfl), (by intro h; simp at h), ?_, ?_, ?_⟩
          · intro gs h; cases h
          · intro gs h; cases h
          · intro h; simp at h
        · have hT : get_gpu_info_traced env =
              (some (GpuReport.nvidia gpus), [Backend.nvidiaSmi]) := by
            simp only [get_gpu_info_traced, hW, hR, hP]
          have hG : get_gpu_info env = some (GpuReport.nvidia gpus) := by
            simp only [get_gpu_info, hW, hR, hP]
          rw [hT, hG]
          refine ⟨rfl, Or.inr (Or.inl rfl), (by intro h; simp at h), ?_, ?_, ?_⟩
          · intro gs h; rfl
          · intro gs h; injection h with h2; cases h2
          · intro h; simp at h
  | true =>
    have hTr : ∀ a, gputilTraced env a = (gputilBranch env, a ++ [Backend.gputil]) := by
      intro a; unfold gputilTraced; rw [hm]; rfl
    rcases hW : env.nvidia.which with _ | p
    · have hT : get_gpu_info_traced env = (gputilBranch env, [Backend.gputil]) := by
        simp only [get_gpu_info_traced, hW, hTr]; rfl
      have hG : get_gpu_info env = gputilBranch env := by
        simp only [get_gpu_info, hW]
      rw [hT, hG]
      refine ⟨rfl, Or.inr (Or.inr (Or.inl rfl)), (by intro h; simp at h), ?_, ?_,
        fun _ => rfl⟩
      · intro gs h; exact absurd h (gputilBranch_ne_nvidia env gs)
      · intro gs h; rfl
    · rcases hR : env.nvidia.run with e | out
      · cases e
        have hT : get_gpu_info_traced env =
            (gputilBranch env, [Backend.nvidiaSmi, Backend.gputil]) := by
          simp only [get_gpu_info_traced, hW, hR, hTr]; rfl
        have hG : get_gpu_info env = gputilBranch env := by
          simp only [get_gpu_info, hW, hR]
        rw [hT, hG]
        refine ⟨rfl, Or.inr (Or.inr (Or.inr rfl)), fun _ => ⟨rfl, Or.inl rfl⟩, ?_, ?_,
          fun _ => rfl⟩
        · intro gs h; exact absurd h (gputilBranch_ne_nvidia env gs)
        · intro gs h; rfl
      · rcases hP : parseGpuLines (stdoutLines out) with e | gpus
        · cases e
          have hT : get_gpu_info_traced env =
              (gputilBranch env, [Backend.nvidiaSmi, Backend.gputil]) := by
            simp only [get_gpu_info_traced, hW, hR, hP, hTr]; rfl
          have hG : get_gpu_info env = gputilBranch env := by
            simp only [get_gpu_info, hW, hR, hP]
          rw [hT, hG]
          refine ⟨rfl, Or.inr (Or.inr (Or.inr rfl)), ?_, ?_, ?_, fun _ => rfl⟩
          · intro _
            refine ⟨rfl, Or.inr ?_⟩
            intro out2 h2
            injection h2 with h3
            rw [← h3]
            exact hP
          · intro gs h; exact absurd h (gputilBranch_ne_nvidia env gs)
          · intro gs h; rfl
        · have hT : get_gpu_info_traced env =
              (some (GpuReport.nvidia gpus), [Backend.nvidiaSmi]) := by
            simp only [get_gpu_info_traced, hW, hR, hP]
          have hG : get_gpu_info env = some (GpuReport.nvidia gpus) := by
            simp only [get_gpu_info, hW, hR, hP]
          rw [hT, hG]
          refine ⟨rfl, Or.inr (Or.inl rfl), (by intro h; simp at h), ?_, ?_, ?_⟩
          · intro gs h; rfl
          · intro gs h; injection h with h2; cases h2
          · intro h; simp at h

/-- C4, witness: on `gpuEnvW` both backends are attempted (the instrumented
trace is the full precedence list), so the theorem yields that nvidia-smi was
on the path and the GPUtil module was present. -/
theorem claim_C4_witness :
    gpuEnvW.nvidia.which.isSome = true ∧ gpuEnvW.gputilModule = true := by
  have h := claim_C4_amended gpuEnvW
  exact ⟨(h.2.2.1 rfl).1, h.2.2.2.2.2 (by decide)⟩

/-- C5: in continuous mode a non-positive interval resolves to the default of
5 seconds, the unset default (0) resolves to 5, and a positive interval is
used as given. -/
theorem claim_C5 (i : ℤ) :
    (i ≤ 0 → effectiveInterval i = 5) ∧
    effectiveInterval 0 = 5 ∧
    effectiveInterval intervalDefault = 5 ∧
    (0 < i → effectiveInterval i = i) := by
  refine ⟨fun h => ?_, by decide, by decide, fun h => ?_⟩
  · unfold effectiveInterval
    rw [if_neg]
    omega
  · unfold effectiveInterval
    rw [if_pos ⟨by omega, h⟩]

/-- C5, witness: interval 0 and interval −3 resolve to 5; interval 7 is used
as given. -/
theorem claim_C5_witness :
    effectiveInterval 0 = 5 ∧ effectiveInterval (-3) = 5 ∧ effectiveInterval 7 = 7 :=
  ⟨(claim_C5 0).2.1, (claim_C5 (-3)).1 (by norm_num), (claim_C5 7).2.2.2 (by norm_num)⟩

/-- C6: starting from a nonexistent path, after two consecutive ticks the CSV
file is exactly one header line (the fixed six field names) followed by the
two data rows in arrival order, it contains exactly one header line, writes
to an existing file are pure appends of one data row, and the header is
written only when the file did not previously exist. -/
theorem claim_C6 (m1 m2 : Metrics) :
    append_csv (some (append_csv none m1)) m2 =
      [CsvLine.header csvFieldnames, CsvLine.row (csvRow m1),
       CsvLine.row (csvRow m2)] ∧
    (append_csv (some (append_csv none m1)) m2).countP CsvLine.isHeader = 1 ∧
    (∀ lines m, append_csv (some lines) m = lines ++ [CsvLine.row (csvRow m)]) ∧
    (∀ m, append_csv none m =
      [CsvLine.header csvFieldnames, CsvLine.row (csvRow m)]) :=
  ⟨rfl, rfl, fun _ _ => rfl, fun _ => rfl⟩

/-- C7: for every non-negative byte count, stripping the unit of
`fmt_bytes n` and multiplying the displayed number by the unit's power-of-1024
scale reconstructs a value within the rounding tolerance (half of the 0.1
display precision, scaled); and the formatter is deterministic. -/
theorem claim_C7 (n : ℚ) (h : 0 ≤ n) :
    |(fmt_bytes n).1 * 1024 ^ (fmt_bytes n).2 - n| ≤ 1024 ^ (fmt_bytes n).2 / 20 ∧
    fmt_bytes n = fmt_bytes n := by
  refine ⟨?_, rfl⟩
  have hspec := (fmt_bytesAux_spec n 0).1
  rw [Nat.sub_zero] at hspec
  have hr := abs_pyRound1_sub (fmt_bytesAux n 0).1
  have hfst : (fmt_bytes n).1 = pyRound1 (fmt_bytesAux n 0).1 := rfl
  have hsnd : (fmt_bytes n).2 = (fmt_bytesAux n 0).2 := rfl
  rw [hfst, hsnd]
  set v := (fmt_bytesAux n 0).1 with hv
  set i := (fmt_bytesAux n 0).2 with hi
  have hS : (0:ℚ) < 1024 ^ i := by positivity
  calc |pyRound1 v * 1024 ^ i - n|
      = |pyRound1 v - v| * 1024 ^ i := by
        rw [← hspec, ← sub_mul, abs_mul, abs_of_pos hS]
    _ ≤ (1/20) * 1024 ^ i := mul_le_mul_of_nonneg_right hr (le_of_lt hS)
    _ = 1024 ^ i / 20 := by ring

/-- C7, witness: the reconstruction bound instantiated at n = 1500 bytes. -/
theorem claim_C7_witness :
    (0:ℚ) ≤ 1500 ∧
    |(fmt_bytes 1500).1 * 1024 ^ (fmt_bytes 1500).2 - 1500|
      ≤ 1024 ^ (fmt_bytes 1500).2 / 20 :=
  ⟨by norm_num, (claim_C7 1500 (by norm_num)).1⟩

/-- C8: `get_disks_info` queries each mounted partition independently: every
partition yields exactly one entry, a partition whose usage query raised
still appears with its total/used/percent fields absent, any entry depends
only on its own partition's input (so one failure leaves every other entry
unchanged), and the collector is a total function (no exception escapes). -/
theorem claim_C8 (env : DisksEnv) (j : ℕ) :
    (get_disks_info env).partitions.length = env.partitions.length ∧
    (∀ p, env.partitions[j]? = some p → p.usage = none →
      (get_disks_info env).partitions[j]? =
        some ⟨p.device, p.mountpoint, p.fstype, none, none, none⟩) ∧
    (∀ env2 : DisksEnv, ∀ i, i ≠ j →
      env2.partitions[i]? = env.partitions[i]? →
      (get_disks_info env2).partitions[i]? = (get_disks_info env).partitions[i]?) := by
  refine ⟨by simp [get_disks_info], ?_, ?_⟩
  · intro p hp hu
    simp only [get_disks_info, List.getElem?_map, hp, Option.map_some]
    simp [partitionEntry, hu]
  · intro env2 i _ hi
    simp only [get_disks_info, List.getElem?_map, hi]

/-- C8, witness: in `disksEnvW` the second mountpoint fails to stat; its
entry still appears with absent size fields. -/
theorem claim_C8_witness :
    (get_disks_info disksEnvW).partitions[1]? =
      some ⟨"devB", "/mnt", "ext4", none, none, none⟩ :=
  (claim_C8 disksEnvW 1).2.1 ⟨"devB", "/mnt", "ext4", none⟩ rfl rfl

/-- C9: if the mandatory telemetry provider (psutil) cannot be imported at
startup, the program exits with the non-zero code 1 and a diagnostic message,
and no snapshot is collected. -/
theorem claim_C9 (ok : Bool) (env : CollectEnv) (h : ok = false) :
    (runProgram ok env).1 = 1 ∧
    (runProgram ok env).1 ≠ 0 ∧
    (runProgram ok env).2.1 = some
      "This script requires \x27psutil\x27. Install with: python -m pip install psutil" ∧
    (runProgram ok env).2.2 = [] := by
  subst h
  refine ⟨rfl, ?_, rfl, rfl⟩
  intro hz
  have h1 : (runProgram false env).1 = 1 := rfl
  rw [h1] at hz
  exact Nat.one_ne_zero hz

/-- C9, witness: the startup failure instantiated at a concrete collection
environment. -/
theorem claim_C9_witness :
    (runProgram false collectEnvW).1 = 1 ∧ (runProgram false collectEnvW).2.2 = [] :=
  ⟨(claim_C9 false collectEnvW rfl).1, (claim_C9 false collectEnvW rfl).2.2.2⟩

/-- C10: the JSON view of every assembled snapshot carries exactly the eleven
keys of the snapshot dict, in source order; the optional domains battery,
temperatures and gpus serialize as explicit `null` when absent rather than
being omitted; and `process_count` is the (non-negative) number of enumerated
pids. -/
theorem claim_C10 (env : CollectEnv) :
    (metricsJson (collect_metrics env)).keys =
      ["timestamp", "os", "cpu", "memory", "disks", "network", "battery",
       "temperatures", "gpus", "process_count", "top_processes"] ∧
    (env.battery = none →
      (metricsJson (collect_metrics env)).lookup "battery" = some Json.null) ∧
    (get_temps_info env.temps = none →
      (metricsJson (collect_metrics env)).lookup "temperatures" = some Json.null) ∧
    (get_gpu_info env.gpu = none →
      (metricsJson (collect_metrics env)).lookup "gpus" = some Json.null) ∧
    (collect_metrics env).process_count = env.pids.length := by
  refine ⟨rfl, ?_, ?_, ?_, rfl⟩
  · intro h
    have hb : get_battery_info env.battery = none := by rw [h]; rfl
    simp [metricsJson, collect_metrics, Json.lookup, List.lookup, hb, optJson]
  · intro h
    simp [metricsJson, collect_metrics, Json.lookup, List.lookup, h, optJson]
  · intro h
    simp [metricsJson, collect_metrics, Json.lookup, List.lookup, h, optJson]

/-- C10, witness: on the batteryless, sensorless, GPU-less host `collectEnvW`
the three optional domains serialize as `null` and the process count equals
the number of enumerated pids. -/
theorem claim_C10_witness :
    (metricsJson (collect_metrics collectEnvW)).lookup "battery" = some Json.null ∧
    (metricsJson (collect_metrics collectEnvW)).lookup "temperatures" = some Json.null ∧
    (metricsJson (collect_metrics collectEnvW)).lookup "gpus" = some Json.null ∧
    (collect_metrics collectEnvW).process_count = collectEnvW.pids.length := by
  have h := claim_C10 collectEnvW
  exact ⟨h.2.1 rfl, h.2.2.1 rfl, h.2.2.2.1 rfl, h.2.2.2.2⟩

end SysMonitor
